import Mathlib

/-!
Shallow embedding of the `iothub-explorer` tool of this repository:
`tools/iothub-explorer/common.js`, `tools/iothub-explorer/iothub-explorer-simulate-device.js`
and the logout command script.

JavaScript conventions used throughout the embedding:
* a variable that may hold `undefined` or a string is an `Option String`;
  JS truthiness of such a value (`if (x)`) is `strTruthy` (empty string and
  `undefined` are falsy);
* `process.exit(1)` and uncaught `throw` are modelled by an effect machine
  (`Eff` / `ProcState` / `execute`) or by the `Halt` error type: statements
  after an exit or a throw do not run;
* runtime and SDK primitives that live outside this repository
  (`JSON.parse`, `fs` results, `ConnectionString.parse`, the registry) are
  parameters of the embedded functions, so every behaviour of the
  environment is quantified over.
-/

/-- JS truthiness of a value that is either `undefined` or a string:
`undefined` and the empty string are falsy. -/
def strTruthy (o : Option String) : Bool :=
  match o with
  | none => false
  | some s => !s.isEmpty

/-! ## `createDeviceConnectionString` (common.js, lines 20-33) -/

/-- The `authentication.SymmetricKey` part of a device record. -/
structure SymmetricKeyInfo where
  primaryKey : Option String
  secondaryKey : Option String
deriving Repr, DecidableEq

/-- The `authentication.x509Thumbprint` part of a device record. -/
structure X509ThumbprintInfo where
  primaryThumbprint : Option String
  secondaryThumbprint : Option String
deriving Repr, DecidableEq

/-- The `authentication` part of a device record. -/
structure AuthenticationInfo where
  SymmetricKey : SymmetricKeyInfo
  x509Thumbprint : X509ThumbprintInfo
deriving Repr, DecidableEq

/-- A device record as returned by the registry, restricted to the fields
`createDeviceConnectionString` reads. -/
structure DeviceInfo where
  deviceId : String
  authentication : AuthenticationInfo
deriving Repr, DecidableEq

/-- Embedding of `createDeviceConnectionString(deviceInfo, hubHostName)` from
common.js: starts from `'HostName=' + hubHostName + ';DeviceId=' + deviceId`,
appends `';SharedAccessKey=' + key` for the first truthy symmetric key,
otherwise appends `'x509=true'` (with no separator) when a thumbprint is
truthy, otherwise yields `null` (here `none`). -/
def createDeviceConnectionString (deviceInfo : DeviceInfo) (hubHostName : String) :
    Option String :=
  if strTruthy deviceInfo.authentication.SymmetricKey.primaryKey then
    some ("HostName=" ++ hubHostName ++ ";DeviceId=" ++ deviceInfo.deviceId
      ++ ";SharedAccessKey=" ++ (deviceInfo.authentication.SymmetricKey.primaryKey.getD ""))
  else if strTruthy deviceInfo.authentication.SymmetricKey.secondaryKey then
    some ("HostName=" ++ hubHostName ++ ";DeviceId=" ++ deviceInfo.deviceId
      ++ ";SharedAccessKey=" ++ (deviceInfo.authentication.SymmetricKey.secondaryKey.getD ""))
  else if strTruthy deviceInfo.authentication.x509Thumbprint.primaryThumbprint
      || strTruthy deviceInfo.authentication.x509Thumbprint.secondaryThumbprint then
    some ("HostName=" ++ hubHostName ++ ";DeviceId=" ++ deviceInfo.deviceId ++ "x509=true")
  else
    none

/-! ## `printError`, `printSuccess` and the process-effect machine

`printError` (common.js, lines 68-75) prints a colored template line and then
calls `process.exit(1)`.  To reason about "the process halts" versus "the
process continues", callback bodies are embedded as a list of effects and run
by `execute`, which stops as soon as the process has exited or a value has
been thrown (statements after `process.exit` or `throw` never run). -/

/-- One primitive effect of a callback body. -/
inductive Eff
  /-- `console.log(s)`. -/
  | print (s : String)
  /-- `process.exit(code)`. -/
  | exitProcess (code : Nat)
  /-- an uncaught `throw` carrying the error's message. -/
  | throwJs (msg : String)
  /-- `fs.unlinkSync` succeeded in deleting the session file. -/
  | deleteFile
  /-- `fileStream.destroy()`. -/
  | destroyStream
  /-- `uploadRunning = false`. -/
  | clearUploadRunning
deriving Repr, DecidableEq

/-- The observable state of the process while a callback body runs. -/
structure ProcState where
  /-- lines printed so far, oldest first. -/
  printed : List String := []
  /-- the exit code when `process.exit` has run. -/
  exitCode : Option Nat := none
  /-- the message of an uncaught thrown error, when one was thrown. -/
  thrown : Option String := none
  /-- whether the session file has been deleted. -/
  fileDeleted : Bool := false
  /-- whether the upload file stream has been destroyed. -/
  streamDestroyed : Bool := false
  /-- the `uploadRunning` flag of `simulateDevice`. -/
  uploadRunning : Bool := false
deriving Repr, DecidableEq

/-- The process can run no further statement: it exited or threw. -/
def ProcState.halted (s : ProcState) : Bool :=
  s.exitCode.isSome || s.thrown.isSome

/-- Apply a single effect to the process state. -/
def applyEff (s : ProcState) : Eff → ProcState
  | .print line => { s with printed := s.printed ++ [line] }
  | .exitProcess code => { s with exitCode := some code }
  | .throwJs msg => { s with thrown := some msg }
  | .deleteFile => { s with fileDeleted := true }
  | .destroyStream => { s with streamDestroyed := true }
  | .clearUploadRunning => { s with uploadRunning := false }

/-- Run a list of effects left to right, stopping at the first exit/throw. -/
def execute (effs : List Eff) (s : ProcState) : ProcState :=
  match effs with
  | [] => s
  | e :: rest => if s.halted then s else execute rest (applyEff s e)

/-- Embedding of `printError(message, prefix)` from common.js: the prefix
defaults to `'Error:'` when falsy, one colored line is printed, and then the
process exits with code 1. -/
def printErrorEffects (message : String) (pre : Option String) : List Eff :=
  [.print ("\n\x7bbold\x7d\x7bred\x7d" ++ (if strTruthy pre then pre.getD "" else "Error:")
      ++ "\x7b/red\x7d\x7b/bold\x7d " ++ message),
   .exitProcess 1]

/-- Embedding of `printSuccess(message)` from common.js. -/
def printSuccessEffects (message : String) : List Eff :=
  [.print ("\x7bgreen\x7d" ++ message ++ "\x7b/green\x7d")]

/-- Embedding of `serviceError(err)` from common.js: strips a leading
`'Error:'` from the message and calls `printError` (which exits). -/
def serviceErrorEffects (errString : String) : List Eff :=
  printErrorEffects
    (if "Error:".isPrefixOf errString then errString.drop "Error:".length else errString)
    none

/-! ## The logout command (the session-terminating script) -/

/-- Outcome of the `fs.unlinkSync` call on the cached session file. -/
inductive UnlinkResult
  /-- the file existed and was deleted. -/
  | ok
  /-- the file did not exist: `err.code === 'ENOENT'`. -/
  | enoent
  /-- any other failure, carrying its error code and message. -/
  | failure (code : String) (msg : String)
deriving Repr, DecidableEq

/-- Embedding of the logout script body:
`try { fs.unlinkSync(loc.dir + '/' + loc.file); printSuccess('Session successfully terminated.'); }`
`catch (err) { if (err.code === 'ENOENT') printError('No session information found.'); else throw err; }` -/
def logoutEffects (r : UnlinkResult) : List Eff :=
  match r with
  | .ok => Eff.deleteFile :: printSuccessEffects "Session successfully terminated."
  | .enoent => printErrorEffects "No session information found." none
  | .failure _ msg => [.throwJs msg]

/-- Run the logout script against a given filesystem outcome. -/
def logoutRun (r : UnlinkResult) : ProcState :=
  execute (logoutEffects r) {}

/-! ## The file-upload callback of `simulateDevice` -/

/-- The constructor name and message of the JS error given to a callback. -/
structure JsErrInfo where
  ctorName : String
  message : String
deriving Repr, DecidableEq

/-- Embedding of the `client.uploadToBlob` completion callback of
`simulateDevice`: on error it calls
`printError('Cannot upload file: ' + err.constructor.name + ': ' + err.message)`,
on success `printSuccess('Upload successful')`; in the source both branches
are followed by `fileStream.destroy()` and `uploadRunning = false`. -/
def uploadToBlobCallback (err : Option JsErrInfo) : List Eff :=
  (match err with
   | some e => printErrorEffects ("Cannot upload file: " ++ e.ctorName ++ ": " ++ e.message) none
   | none => printSuccessEffects "Upload successful")
  ++ [.destroyStream, .clearUploadRunning]

/-- The process state while `simulateDevice` has an upload in flight. -/
def uploadInitState : ProcState :=
  { uploadRunning := true }

/-! ## `loadSasFromUserFile` and `getSas` (common.js, lines 150-187) -/

/-- How a top-level flow of control ends without producing a value. -/
inductive Halt
  /-- `inputError`: `printError(message, 'Input Error:')`, which prints and
  then calls `process.exit(1)`. -/
  | inputErrorExit (message : String)
  /-- an error rethrown out of the function. -/
  | thrown (message : String)
deriving Repr, DecidableEq

/-- Outcome of `fs.readFileSync` on the cached session file. -/
inductive FsRead
  /-- the file exists with this content. -/
  | content (s : String)
  /-- the file does not exist: `err.code === 'ENOENT'`. -/
  | enoent
  /-- any other read failure, carrying its message. -/
  | failure (msg : String)
deriving Repr, DecidableEq

/-- Embedding of `loadSasFromUserFile()` from common.js: reads the config
file; an ENOENT failure is swallowed (`sas` stays `undefined`); any other
failure is rethrown. -/
def loadSasFromUserFile (fileRead : FsRead) : Except Halt (Option String) :=
  match fileRead with
  | .content s => .ok (some s)
  | .enoent => .ok none
  | .failure msg => .error (.thrown msg)

/-- The fields of a parsed `azure-iothub` service connection string that
`getSas` reads. -/
structure ParsedCn where
  HostName : String
  SharedAccessKeyName : String
  SharedAccessKey : String
deriving Repr, DecidableEq

/-- Outcome of `ConnectionString.parse` (an SDK primitive outside this
repository): success, an `errors.ArgumentError`, or any other throw. -/
inductive CnParseResult
  | ok (cn : ParsedCn)
  | argumentError
  | otherError (msg : String)
deriving Repr, DecidableEq

/-- Modelled SDK primitive `SharedAccessSignature.create(host, keyName, key,
expiry).toString()` restricted to the fields the spec describes: an opaque
signed string embedding the resource URI (`sr`), the key name (`skn`), a
signature derived from the key (`sig`) and the expiry timestamp (`se`). -/
structure SasToken where
  sr : String
  sig : String
  skn : String
  se : Nat
deriving Repr, DecidableEq

/-- Modelled SDK primitive: render a shared-access-signature token as the
opaque signed string the SDK produces. -/
def sasToString (t : SasToken) : String :=
  "SharedAccessSignature sr=" ++ t.sr ++ "&sig=" ++ t.sig ++ "&skn=" ++ t.skn
    ++ "&se=" ++ toString t.se

/-- The message of the input error `getSas` raises when it ends up with no
token. -/
def authRequiredMsg : String :=
  "You must either use the login command or the --login argument for iothub-explorer to authenticate with your IoT Hub instance"

/-- Embedding of `getSas(connectionString)` from common.js.  `nowMs` is
`Date.now()`; `cnParse` is the SDK `ConnectionString.parse`; `fileRead` is
the state of the cached session file.  When a connection string is supplied
it is parsed (an `ArgumentError` becomes an input error, anything else is
rethrown) and a token with expiry `Math.floor(Date.now() / 1000) + 3600` is
created; otherwise the cached token is loaded.  A falsy result is an input
error telling the user to authenticate first. -/
def getSas (nowMs : Nat) (cnParse : String → CnParseResult) (fileRead : FsRead)
    (connectionString : Option String) : Except Halt String := do
  let sas : Option String ←
    if strTruthy connectionString then
      match cnParse (connectionString.getD "") with
      | .argumentError =>
        .error (.inputErrorExit ("Could not parse connection string: " ++ connectionString.getD ""))
      | .otherError msg => .error (.thrown msg)
      | .ok cn =>
        let expiry := nowMs / 1000 + 3600
        pure (some (sasToString
          { sr := cn.HostName, sig := cn.SharedAccessKey, skn := cn.SharedAccessKeyName,
            se := expiry }))
    else
      loadSasFromUserFile fileRead
  if strTruthy sas then
    pure (sas.getD "")
  else
    .error (.inputErrorExit authRequiredMsg)

/-! ## The send interval of `simulateDevice` -/

/-- JS `Number.MAX_SAFE_INTEGER`. -/
def maxSafeInteger : Nat := 2 ^ 53 - 1

/-- `program.sendCount || Number.MAX_SAFE_INTEGER`: an absent or zero
(falsy) count defaults to the effectively unbounded maximum. -/
def effectiveSendCount (sendCountArg : Option Nat) : Nat :=
  match sendCountArg with
  | some k => if k = 0 then maxSafeInteger else k
  | none => maxSafeInteger

/-- The loop-relevant state of `simulateDevice`: the send counter, the
activity flags consulted by the 200 ms task interval, whether the send
interval is still registered, and how many messages have been sent. -/
structure SimState where
  sendCounter : Nat
  sendRunning : Bool
  sendIntervalActive : Bool
  messagesSent : Nat
  receiveRunning : Bool
  uploadRunning : Bool
deriving Repr, DecidableEq

/-- The state right after `client.open` succeeds with `--send` requested:
`sendRunning = !!program.send` is true, the send interval is registered, and
the receive/upload flags reflect whether those activities were requested. -/
def simInitState (receiveRunning uploadRunning : Bool) : SimState :=
  { sendCounter := 0, sendRunning := true, sendIntervalActive := true,
    messagesSent := 0, receiveRunning := receiveRunning, uploadRunning := uploadRunning }

/-- One firing of the send interval in which `client.sendEvent` succeeds:
a message is transmitted, `printSuccess` runs, `sendCounter++`, and when
`sendCounter === sendCount` the flag is cleared and `clearInterval(sendItv)`
unregisters the interval.  A firing after the interval was cleared changes
nothing. -/
def sendTick (sendCount : Nat) (s : SimState) : SimState :=
  if s.sendIntervalActive then
    let c := s.sendCounter + 1
    if c = sendCount then
      { s with
        sendCounter := c, messagesSent := s.messagesSent + 1,
        sendRunning := false, sendIntervalActive := false }
    else
      { s with sendCounter := c, messagesSent := s.messagesSent + 1 }
  else s

/-- The condition of the 200 ms task interval that ends the simulation:
every requested activity has completed. -/
def simulationFinished (s : SimState) : Bool :=
  !s.sendRunning && !s.receiveRunning && !s.uploadRunning

/-! ## `createMessageFromArgument` (common.js, lines 35-62) -/

/-- A JavaScript value as produced by `JSON.parse`, plus `undefined`. -/
inductive JsValue
  | undefined
  | null
  | boolean (b : Bool)
  | number (n : Int)
  | str (s : String)
  | obj (fields : List (String × JsValue))
deriving Repr, BEq

/-- JS truthiness of a `JsValue`. -/
def jsTruthy : JsValue → Bool
  | .undefined => false
  | .null => false
  | .boolean b => b
  | .number n => n != 0
  | .str s => !s.isEmpty
  | .obj _ => true

/-- Errors a JS expression can throw in this fragment. -/
inductive JsError
  | typeError (msg : String)
  | syntaxError (msg : String)
  | other (msg : String)
deriving Repr, DecidableEq

/-- Outcome of the runtime primitive `JSON.parse` on a given string. -/
inductive JsonParseOutcome
  | ok (v : JsValue)
  | syntaxError (msg : String)
  | otherError (msg : String)

/-- Property read `v[key]`: on `undefined` or `null` it throws a
`TypeError`; on an object it yields the field or `undefined`; on any other
value it yields `undefined` (no own properties are modelled). -/
def getProp (v : JsValue) (key : String) : Except JsError JsValue :=
  match v with
  | .undefined => .error (.typeError ("Cannot read property " ++ key ++ " of undefined"))
  | .null => .error (.typeError ("Cannot read property " ++ key ++ " of null"))
  | .obj fields => .ok (((fields.find? (fun p => p.1 == key)).map Prod.snd).getD .undefined)
  | _ => .ok .undefined

/-- An `azure-iot-common` `Message` envelope, restricted to the fields the
tool sets: the body, the `messageId` and the optional `ack` flag. -/
structure JsMessage where
  body : JsValue
  messageId : Option String
  ack : Option String
deriving Repr

/-- The inner `createMessage(body)` helper of `createMessageFromArgument`:
wraps the body in a new `Message`, assigns a freshly generated identifier
(`uuid.v4()`, here the parameter `freshId`), and sets `msg.ack` when the
`ack` argument is truthy. -/
def createMessage (freshId : String) (ack : Option String) (body : JsValue) : JsMessage :=
  { body := body, messageId := some freshId, ack := if strTruthy ack then ack else none }

/-- What `createMessageFromArgument` returns: either the raw parsed JSON
structure (`message = tmpMessage`) or a freshly created envelope. -/
inductive MsgResult
  | raw (v : JsValue)
  | created (m : JsMessage)
deriving Repr

/-- Embedding of `createMessageFromArgument(messageArg, ack)` from common.js.
`jsonParse` is the runtime `JSON.parse`; `freshId` is the value `uuid.v4()`
would generate.  The try block parses the argument into `tmpMessage` and
then evaluates `message.messageId` — where `message` is the still-undefined
`var message` — so the property read is performed on `undefined`.  The catch
clause turns a `SyntaxError` into the plain-text path and rethrows anything
else. -/
def createMessageFromArgument (jsonParse : String → JsonParseOutcome) (freshId : String)
    (messageArg : String) (ack : Option String) : Except JsError MsgResult :=
  let message : JsValue := .undefined
  let tryBlock : Except JsError MsgResult :=
    match jsonParse messageArg with
    | .ok tmpMessage =>
      match getProp message "messageId" with
      | .error e => .error e
      | .ok cond =>
        if jsTruthy cond then .ok (.raw tmpMessage)
        else .ok (.created (createMessage freshId ack tmpMessage))
    | .syntaxError msg => .error (.syntaxError msg)
    | .otherError msg => .error (.other msg)
  match tryBlock with
  | .error (.syntaxError _) => .ok (.created (createMessage freshId ack (.str messageArg)))
  | .error e => .error e
  | .ok r => .ok r

/-- The command-line argument `'{"messageId":"x","body":"y"}'` of the spec's
example: a string that parses as JSON into an object carrying a
message-identifier field. -/
def messageIdJsonArg : String :=
  "\x7b\"messageId\":\"x\",\"body\":\"y\"\x7d"

/-! ## The top-level flow of `iothub-explorer-simulate-device.js`

The script body is embedded as a function that produces the list of
observable events up to (and including) the opening of the device
connection.  `inputError`/`serviceError` exit the process, so an exit event
is always the last event of a trace.  ASCII quotes inside the original
message literals are omitted. -/

/-- The parsed command-line options of the simulate-device command.
`send` is the truthiness of `program.send` (which may be `true` or a
message string); `firstArg` is `program.args[0]`. -/
structure SimArgs where
  connectionString : Option String
  login : Option String
  protocol : Option String
  send : Bool
  receive : Bool
  uploadFile : Option String
  settle : Option String
  firstArg : Option String
deriving Repr, DecidableEq

/-- An observable event of the script run. -/
inductive Ev
  /-- `inputError(msg)`: printed and the process exits. -/
  | exitInputError (msg : String)
  /-- `serviceError(err)`: printed (with a leading `Error:` stripped) and
  the process exits. -/
  | exitServiceError (msg : String)
  /-- an uncaught `throw` ends the process. -/
  | uncaughtThrow (msg : String)
  /-- `registry.get(deviceId, ...)`: a network lookup of the device. -/
  | registryGet (deviceId : String)
  /-- `client.open(...)`: the device connection is opened. -/
  | clientOpen
deriving Repr, DecidableEq

/-- The message of the first validation
(`(!program.connectionString && !sas) || (program.connectionString && sas)`). -/
def bothOrNeitherMsg : String :=
  "You must specify either the device connection string (--connection-string), the IoT Hub connection string (--login), or use the login command first."

/-- The message of the device-id validation and of the re-check inside the
device-resolution branch. -/
def needDeviceMsg : String :=
  "You must specify either a device connection string (--connection-string) or the IoT Hub connection string and a device id as first argument"

/-- Embedding of the top-level script of
`iothub-explorer-simulate-device.js`, from `var sas = getSas(program.login)`
down to the `client.open` call of `simulateDevice`.  Environment parameters:
`cnParse` is the SDK `ConnectionString.parse`; `fileRead` the cached session
file; `getHost` the SDK `SharedAccessSignature.parse(sas).sr`;
`devCnDeviceId` the SDK `DeviceConnectionString.parse(cs).DeviceId` (or a
throw); `registryLookup` the result of the registry `get`.  The protocol
`switch` only validates in its `mqtt` case; the other cases merely choose
the transport, which the trace does not observe. -/
def scriptEvents (nowMs : Nat) (cnParse : String → CnParseResult) (fileRead : FsRead)
    (getHost : String → String) (devCnDeviceId : String → Except String String)
    (registryLookup : String → Except String DeviceInfo) (args : SimArgs) : List Ev :=
  match getSas nowMs cnParse fileRead args.login with
  | .error (.inputErrorExit m) => [.exitInputError m]
  | .error (.thrown m) => [.uncaughtThrow m]
  | .ok sas =>
    if (!strTruthy args.connectionString && !strTruthy (some sas))
        || (strTruthy args.connectionString && strTruthy (some sas)) then
      [.exitInputError bothOrNeitherMsg]
    else if !strTruthy args.connectionString && !strTruthy args.firstArg then
      [.exitInputError needDeviceMsg]
    else if !args.send && !args.receive && !strTruthy args.uploadFile then
      [.exitInputError "Nothing to do: please use --send, --receive or --uploadFile"]
    else
      let settleMethod := if strTruthy args.settle then args.settle.getD "" else "complete"
      let protocolArg := if strTruthy args.protocol then args.protocol.getD "" else "amqp"
      if protocolArg == "mqtt" && settleMethod != "complete" then
        [.exitInputError
          ("Cannot " ++ settleMethod ++ " messages with MQTT: messages are automatically completed.")]
      else
        if !strTruthy args.firstArg then
          if !strTruthy args.connectionString then
            [.exitInputError needDeviceMsg]
          else
            match devCnDeviceId (args.connectionString.getD "") with
            | .error m => [.uncaughtThrow m]
            | .ok _ => [.clientOpen]
        else
          let deviceId := args.firstArg.getD ""
          match registryLookup deviceId with
          | .error m =>
            [.registryGet deviceId,
             .exitServiceError (if "Error:".isPrefixOf m then m.drop "Error:".length else m)]
          | .ok deviceInfo =>
            match createDeviceConnectionString deviceInfo (getHost sas) with
            | none => [.registryGet deviceId,
                .uncaughtThrow "Could not figure out device connection string"]
            | some _ => [.registryGet deviceId, .clientOpen]

/-! ## Theorems -/

/-- C7: the connection string is absent exactly when both keys and both
thumbprints are absent; any present result starts with the host name and
device id. -/
theorem createDeviceConnectionString_none_iff (deviceInfo : DeviceInfo)
    (hubHostName : String) :
    (createDeviceConnectionString deviceInfo hubHostName = none ↔
      strTruthy deviceInfo.authentication.SymmetricKey.primaryKey = false ∧
      strTruthy deviceInfo.authentication.SymmetricKey.secondaryKey = false ∧
      strTruthy deviceInfo.authentication.x509Thumbprint.primaryThumbprint = false ∧
      strTruthy deviceInfo.authentication.x509Thumbprint.secondaryThumbprint = false) ∧
    (∀ s, createDeviceConnectionString deviceInfo hubHostName = some s →
      ∃ rest, s = "HostName=" ++ hubHostName ++ ";DeviceId=" ++ deviceInfo.deviceId ++ rest) := by
  constructor
  · unfold createDeviceConnectionString
    rcases hpk : strTruthy deviceInfo.authentication.SymmetricKey.primaryKey <;>
      rcases hsk : strTruthy deviceInfo.authentication.SymmetricKey.secondaryKey <;>
      rcases hpt : strTruthy deviceInfo.authentication.x509Thumbprint.primaryThumbprint <;>
      rcases hst : strTruthy deviceInfo.authentication.x509Thumbprint.secondaryThumbprint <;>
      simp [hpk, hsk, hpt, hst]
  · intro s hs
    unfold createDeviceConnectionString at hs
    split at hs
    · exact ⟨";SharedAccessKey=" ++ (deviceInfo.authentication.SymmetricKey.primaryKey.getD ""),
        by rw [← Option.some.inj hs]; simp [String.append_assoc]⟩
    · split at hs
      · exact ⟨";SharedAccessKey=" ++ (deviceInfo.authentication.SymmetricKey.secondaryKey.getD ""),
          by rw [← Option.some.inj hs]; simp [String.append_assoc]⟩
      · split at hs
        · exact ⟨"x509=true", by rw [← Option.some.inj hs]⟩
        · simp at hs

/-- Witness for C7 at concrete device records: an all-absent record yields
`none`, and a key-bearing record yields a string extending the
host-and-device prefix. -/
theorem createDeviceConnectionString_none_iff_witness :
    (createDeviceConnectionString
        ⟨"d1", ⟨⟨none, none⟩, ⟨none, none⟩⟩⟩ "h.azure-devices.net" = none) ∧
    (∃ rest, "HostName=h.azure-devices.net;DeviceId=d1;SharedAccessKey=k" =
      "HostName=" ++ "h.azure-devices.net" ++ ";DeviceId=" ++ "d1" ++ rest) := by
  constructor
  · exact (createDeviceConnectionString_none_iff
      ⟨"d1", ⟨⟨none, none⟩, ⟨none, none⟩⟩⟩ "h.azure-devices.net").1.mpr
      (by refine ⟨?_, ?_, ?_, ?_⟩ <;> decide)
  · exact (createDeviceConnectionString_none_iff
      ⟨"d1", ⟨⟨some "k", none⟩, ⟨none, none⟩⟩⟩ "h.azure-devices.net").2
      "HostName=h.azure-devices.net;DeviceId=d1;SharedAccessKey=k" (by decide)

/-- C10: when both symmetric keys are absent and some thumbprint is present,
the result is the host-and-device prefix immediately followed by `x509=true`,
with no semicolon separator before the marker. -/
theorem createDeviceConnectionString_x509_no_separator (deviceInfo : DeviceInfo)
    (hubHostName : String)
    (hpk : strTruthy deviceInfo.authentication.SymmetricKey.primaryKey = false)
    (hsk : strTruthy deviceInfo.authentication.SymmetricKey.secondaryKey = false)
    (hth : strTruthy deviceInfo.authentication.x509Thumbprint.primaryThumbprint = true ∨
      strTruthy deviceInfo.authentication.x509Thumbprint.secondaryThumbprint = true) :
    createDeviceConnectionString deviceInfo hubHostName =
      some ("HostName=" ++ hubHostName ++ ";DeviceId=" ++ deviceInfo.deviceId ++ "x509=true") := by
  unfold createDeviceConnectionString
  rcases hth with h | h <;> simp [hpk, hsk, h, String.append_assoc]

/-- Witness for C10 at a concrete thumbprint-only device record. -/
theorem createDeviceConnectionString_x509_no_separator_witness :
    createDeviceConnectionString ⟨"d2", ⟨⟨none, none⟩, ⟨some "t", none⟩⟩⟩ "h" =
      some ("HostName=" ++ "h" ++ ";DeviceId=" ++ "d2" ++ "x509=true") :=
  createDeviceConnectionString_x509_no_separator
    ⟨"d2", ⟨⟨none, none⟩, ⟨some "t", none⟩⟩⟩ "h" (by decide)
    (by decide) (Or.inl (by decide))

/-- C4: with no session file the logout script prints the
"No session information found." line and throws nothing; with an existing
file it deletes it and prints the success line; any other deletion failure
propagates (is rethrown). -/
theorem logout_missing_file_not_thrown (code msg : String) :
    ((logoutRun .enoent).printed =
        ["\n\x7bbold\x7d\x7bred\x7dError:\x7b/red\x7d\x7b/bold\x7d No session information found."] ∧
      (logoutRun .enoent).thrown = none ∧
      (logoutRun .enoent).fileDeleted = false) ∧
    ((logoutRun .ok).fileDeleted = true ∧
      (logoutRun .ok).printed = ["\x7bgreen\x7dSession successfully terminated.\x7b/green\x7d"] ∧
      (logoutRun .ok).thrown = none) ∧
    ((logoutRun (.failure code msg)).thrown = some msg ∧
      (logoutRun (.failure code msg)).printed = []) := by
  refine ⟨⟨?_, ?_, ?_⟩, ⟨?_, ?_, ?_⟩, ?_, ?_⟩ <;> rfl

/-- C2: when the file upload fails, the callback goes through `printError`,
so the process exits with code 1; the statements that would mark uploading
complete (`fileStream.destroy()`, `uploadRunning = false`) never run, so the
simulation does not continue.  By contrast any service failure routed
through `serviceError` also exits, as the claim says. -/
theorem uploadToBlob_failure_exits_process (e : JsErrInfo) (m : String) :
    ((execute (uploadToBlobCallback (some e)) uploadInitState).exitCode = some 1 ∧
      (execute (uploadToBlobCallback (some e)) uploadInitState).uploadRunning = true ∧
      (execute (uploadToBlobCallback (some e)) uploadInitState).streamDestroyed = false ∧
      (execute (uploadToBlobCallback (some e)) uploadInitState).printed =
        ["\n\x7bbold\x7d\x7bred\x7d" ++ "Error:" ++ "\x7b/red\x7d\x7b/bold\x7d "
          ++ ("Cannot upload file: " ++ e.ctorName ++ ": " ++ e.message)]) ∧
    (execute (serviceErrorEffects ("Error:" ++ m)) {}).exitCode = some 1 := by
  refine ⟨⟨?_, ?_, ?_, ?_⟩, ?_⟩ <;> rfl

/-- A rendered token is never the empty string, hence always truthy. -/
theorem strTruthy_sasToString (t : SasToken) : strTruthy (some (sasToString t)) = true := by
  have hne : sasToString t ≠ "" := by
    intro h
    have hlen := congrArg List.length (congrArg String.data h)
    simp [sasToString, String.data_append] at hlen
  simp only [strTruthy]
  cases hb : (sasToString t).isEmpty with
  | false => rfl
  | true => exact absurd ((String.isEmpty_iff _).mp hb) hne

/-- A nonempty string is truthy. -/
theorem strTruthy_some_of_ne (s : String) (h : s ≠ "") : strTruthy (some s) = true := by
  simp only [strTruthy]
  cases hb : s.isEmpty with
  | false => rfl
  | true => exact absurd ((String.isEmpty_iff _).mp hb) h

/-- C8: `getSas` with no connection string and no cached session file raises
the input error telling the user to authenticate first (so it returns no
value), while `loadSasFromUserFile` swallows the missing-file condition
instead of throwing. -/
theorem getSas_no_auth_is_input_error (nowMs : Nat) (cnParse : String → CnParseResult) :
    getSas nowMs cnParse .enoent none = .error (.inputErrorExit authRequiredMsg) ∧
    loadSasFromUserFile .enoent = .ok none :=
  ⟨rfl, rfl⟩

/-- C9: `getSas` on a parseable service connection string produces a token
whose expiry is exactly `Math.floor(Date.now() / 1000) + 3600`, a one-hour
validity window. -/
theorem getSas_expiry_one_hour (nowMs : Nat) (cnParse : String → CnParseResult)
    (fileRead : FsRead) (cs : String) (cn : ParsedCn)
    (h1 : cs ≠ "") (h2 : cnParse cs = .ok cn) :
    ∃ t : SasToken, getSas nowMs cnParse fileRead (some cs) = .ok (sasToString t) ∧
      t.se = nowMs / 1000 + 3600 := by
  refine ⟨⟨cn.HostName, cn.SharedAccessKey, cn.SharedAccessKeyName, nowMs / 1000 + 3600⟩,
    ?_, rfl⟩
  simp [getSas, strTruthy_some_of_ne cs h1, h2, strTruthy_sasToString]
  rfl

/-- Witness for C9 at a concrete clock value and connection string. -/
theorem getSas_expiry_one_hour_witness :
    ∃ t : SasToken,
      getSas 1234567
        (fun s => if s = "HostName=h;SharedAccessKeyName=n;SharedAccessKey=k"
          then .ok ⟨"h", "n", "k"⟩ else .argumentError)
        .enoent (some "HostName=h;SharedAccessKeyName=n;SharedAccessKey=k") =
          .ok (sasToString t) ∧
      t.se = 1234567 / 1000 + 3600 :=
  getSas_expiry_one_hour 1234567
    (fun s => if s = "HostName=h;SharedAccessKeyName=n;SharedAccessKey=k"
      then .ok ⟨"h", "n", "k"⟩ else .argumentError)
    .enoent "HostName=h;SharedAccessKeyName=n;SharedAccessKey=k" ⟨"h", "n", "k"⟩
    (by decide) (by decide)

/-- After `j ≤ n` successful firings the counter equals `j` and the interval
is live exactly while the count has not been reached. -/
theorem sendTick_iterate_of_le (n j : Nat) (rr ur : Bool) (hn : 0 < n) (hj : j ≤ n) :
    (sendTick n)^[j] (simInitState rr ur) =
      { sendCounter := j, sendRunning := decide (j ≠ n), sendIntervalActive := decide (j ≠ n),
        messagesSent := j, receiveRunning := rr, uploadRunning := ur } := by
  induction j with
  | zero =>
    have h0 : (0 : Nat) ≠ n := fun h => (Nat.pos_iff_ne_zero.mp hn) h.symm
    simp [simInitState, h0]
  | succ j ih =>
    have hj' : j ≤ n := Nat.le_of_succ_le hj
    have hjn : j ≠ n := Nat.ne_of_lt (Nat.lt_of_lt_of_le (Nat.lt_succ_self j) hj)
    rw [Function.iterate_succ_apply', ih hj']
    by_cases h : j + 1 = n
    · simp [sendTick, hjn, h]
    · simp [sendTick, hjn, h]

/-- Once the send interval has been cleared, further firings change nothing. -/
theorem sendTick_fixed (n m : Nat) (s : SimState) (h : s.sendIntervalActive = false) :
    (sendTick n)^[m] s = s := by
  induction m with
  | zero => rfl
  | succ m ih => rw [Function.iterate_succ_apply, sendTick, if_neg (by simp [h]), ih]

/-- C5: with a configured positive send count `n` (the `|| MAX_SAFE_INTEGER`
default does not kick in) and every send succeeding, any `k ≥ n` firings
transmit exactly `n` messages, after which the interval is unregistered and
sending is marked complete, while the receive/upload flags — and hence the
termination condition of the task loop — are untouched by sending. -/
theorem sendCount_sends_exactly_n (n k : Nat) (rr ur : Bool) (h0 : 0 < n) (hk : n ≤ k) :
    effectiveSendCount (some n) = n ∧
    ((sendTick n)^[k] (simInitState rr ur)).messagesSent = n ∧
    ((sendTick n)^[k] (simInitState rr ur)).sendIntervalActive = false ∧
    ((sendTick n)^[k] (simInitState rr ur)).sendRunning = false ∧
    ((sendTick n)^[k] (simInitState rr ur)).receiveRunning = rr ∧
    ((sendTick n)^[k] (simInitState rr ur)).uploadRunning = ur ∧
    simulationFinished ((sendTick n)^[k] (simInitState rr ur)) = (!rr && !ur) := by
  have hsplit : (sendTick n)^[k] (simInitState rr ur) =
      (sendTick n)^[n] (simInitState rr ur) := by
    have : k = (k - n) + n := (Nat.sub_add_cancel hk).symm
    rw [this, Function.iterate_add_apply, sendTick_fixed]
    rw [sendTick_iterate_of_le n n rr ur h0 le_rfl]
    simp
  rw [hsplit, sendTick_iterate_of_le n n rr ur h0 le_rfl]
  refine ⟨?_, by simp, by simp, by simp, rfl, rfl, by simp [simulationFinished]⟩
  simp [effectiveSendCount, Nat.pos_iff_ne_zero.mp h0]

/-- Witness for C5: three firings with `--send-count 3` send exactly three
messages and stop the interval; a requested receive activity still governs
termination. -/
theorem sendCount_sends_exactly_n_witness :
    effectiveSendCount (some 3) = 3 ∧
    ((sendTick 3)^[5] (simInitState true false)).messagesSent = 3 ∧
    ((sendTick 3)^[5] (simInitState true false)).sendIntervalActive = false ∧
    ((sendTick 3)^[5] (simInitState true false)).sendRunning = false ∧
    ((sendTick 3)^[5] (simInitState true false)).receiveRunning = true ∧
    ((sendTick 3)^[5] (simInitState true false)).uploadRunning = false ∧
    simulationFinished ((sendTick 3)^[5] (simInitState true false)) = (!true && !false) :=
  sendCount_sends_exactly_n 3 5 true false (by decide) (by decide)

/-- C1 (behaviour at the failing input): whenever `JSON.parse` succeeds on
the input — in particular on `'{"messageId":"x","body":"y"}'` — the
function throws a `TypeError`, because the condition reads `messageId` from
the still-undefined variable `message` instead of from `tmpMessage`; the
parsed structure is never returned.  The plain-text path is intact: when the
parse raises a `SyntaxError` (e.g. on `'hello'`), a fresh envelope around
the raw text is returned. -/
theorem createMessageFromArgument_parsed_json_throws
    (jsonParse : String → JsonParseOutcome) (freshId : String) (ack : Option String)
    (v : JsValue) (hparse : jsonParse messageIdJsonArg = .ok v)
    (hplain : jsonParse "hello" = .syntaxError "Unexpected token h in JSON at position 0") :
    createMessageFromArgument jsonParse freshId messageIdJsonArg ack =
      .error (.typeError "Cannot read property messageId of undefined") ∧
    createMessageFromArgument jsonParse freshId "hello" ack =
      .ok (.created (createMessage freshId ack (.str "hello"))) := by
  constructor
  · simp [createMessageFromArgument, hparse, getProp]
  · simp [createMessageFromArgument, hplain]

/-- Witness for C1 with a concrete `JSON.parse` behaviour. -/
theorem createMessageFromArgument_parsed_json_throws_witness :
    createMessageFromArgument
        (fun s => if s = messageIdJsonArg
          then .ok (.obj [("messageId", .str "x"), ("body", .str "y")])
          else .syntaxError "Unexpected token h in JSON at position 0")
        "fresh-id" messageIdJsonArg (some "full") =
      .error (.typeError "Cannot read property messageId of undefined") ∧
    createMessageFromArgument
        (fun s => if s = messageIdJsonArg
          then .ok (.obj [("messageId", .str "x"), ("body", .str "y")])
          else .syntaxError "Unexpected token h in JSON at position 0")
        "fresh-id" "hello" (some "full") =
      .ok (.created (createMessage "fresh-id" (some "full") (.str "hello"))) :=
  createMessageFromArgument_parsed_json_throws
    (fun s => if s = messageIdJsonArg
      then .ok (.obj [("messageId", .str "x"), ("body", .str "y")])
      else .syntaxError "Unexpected token h in JSON at position 0")
    "fresh-id" (some "full")
    (.obj [("messageId", .str "x"), ("body", .str "y")])
    (by simp) (by simp [messageIdJsonArg])

/-- C3 (behaviour at the failing input): invoking the command with only a
device connection string — no `--login` and no cached session file — halts
with the authenticate-first input error raised inside `getSas`, before any
registry lookup or connection: supplying exactly source (a) alone does not
proceed to simulation. -/
theorem connectionString_only_is_input_error
    (nowMs : Nat) (cnParse : String → CnParseResult) (getHost : String → String)
    (devCnDeviceId : String → Except String String)
    (registryLookup : String → Except String DeviceInfo) :
    scriptEvents nowMs cnParse .enoent getHost devCnDeviceId registryLookup
      { connectionString := some "HostName=h.azure-devices.net;DeviceId=d1;SharedAccessKey=k",
        login := none, protocol := none, send := true, receive := false,
        uploadFile := none, settle := none, firstArg := none } =
      [.exitInputError authRequiredMsg] ∧
    Ev.clientOpen ∉ scriptEvents nowMs cnParse .enoent getHost devCnDeviceId registryLookup
      { connectionString := some "HostName=h.azure-devices.net;DeviceId=d1;SharedAccessKey=k",
        login := none, protocol := none, send := true, receive := false,
        uploadFile := none, settle := none, firstArg := none } ∧
    ∀ d, Ev.registryGet d ∉
      scriptEvents nowMs cnParse .enoent getHost devCnDeviceId registryLookup
        { connectionString := some "HostName=h.azure-devices.net;DeviceId=d1;SharedAccessKey=k",
          login := none, protocol := none, send := true, receive := false,
          uploadFile := none, settle := none, firstArg := none } := by
  have h : scriptEvents nowMs cnParse .enoent getHost devCnDeviceId registryLookup
      { connectionString := some "HostName=h.azure-devices.net;DeviceId=d1;SharedAccessKey=k",
        login := none, protocol := none, send := true, receive := false,
        uploadFile := none, settle := none, firstArg := none } =
      [.exitInputError authRequiredMsg] := rfl
  refine ⟨h, ?_, ?_⟩
  · rw [h]; simp
  · intro d; rw [h]; simp

/-- C6: with the MQTT protocol and a non-`complete` settle policy (and an
otherwise valid invocation: cached token, device id, `--send`), the script
exits with the MQTT input error raised by the protocol `switch`, which runs
strictly before `simulateDevice`: the trace contains no `client.open` and
no registry lookup. -/
theorem mqtt_nondefault_settle_errors_before_connect
    (nowMs : Nat) (cnParse : String → CnParseResult) (getHost : String → String)
    (devCnDeviceId : String → Except String String)
    (registryLookup : String → Except String DeviceInfo)
    (sasContent st deviceId : String)
    (hsas : sasContent ≠ "") (hst0 : st ≠ "") (hst : st ≠ "complete") (hd : deviceId ≠ "") :
    scriptEvents nowMs cnParse (.content sasContent) getHost devCnDeviceId registryLookup
      { connectionString := none, login := none, protocol := some "mqtt", send := true,
        receive := false, uploadFile := none, settle := some st, firstArg := some deviceId } =
      [.exitInputError
        ("Cannot " ++ st ++ " messages with MQTT: messages are automatically completed.")] ∧
    Ev.clientOpen ∉
      scriptEvents nowMs cnParse (.content sasContent) getHost devCnDeviceId registryLookup
        { connectionString := none, login := none, protocol := some "mqtt", send := true,
          receive := false, uploadFile := none, settle := some st, firstArg := some deviceId } ∧
    ∀ d, Ev.registryGet d ∉
      scriptEvents nowMs cnParse (.content sasContent) getHost devCnDeviceId registryLookup
        { connectionString := none, login := none, protocol := some "mqtt", send := true,
          receive := false, uploadFile := none, settle := some st, firstArg := some deviceId } := by
  have hnone : strTruthy none = false := rfl
  have hE1 : sasContent.isEmpty = false := by
    cases hb : sasContent.isEmpty with
    | false => rfl
    | true => exact absurd ((String.isEmpty_iff _).mp hb) hsas
  have hE2 : st.isEmpty = false := by
    cases hb : st.isEmpty with
    | false => rfl
    | true => exact absurd ((String.isEmpty_iff _).mp hb) hst0
  have hE3 : deviceId.isEmpty = false := by
    cases hb : deviceId.isEmpty with
    | false => rfl
    | true => exact absurd ((String.isEmpty_iff _).mp hb) hd
  have hgs : getSas nowMs cnParse (.content sasContent) none = .ok sasContent := by
    show (if strTruthy (some sasContent) = true then Except.ok ((some sasContent).getD "")
      else Except.error (Halt.inputErrorExit authRequiredMsg)) = Except.ok sasContent
    rw [if_pos (strTruthy_some_of_ne sasContent hsas)]
    rfl
  have htrace : scriptEvents nowMs cnParse (.content sasContent) getHost devCnDeviceId
      registryLookup
      { connectionString := none, login := none, protocol := some "mqtt", send := true,
        receive := false, uploadFile := none, settle := some st, firstArg := some deviceId } =
      [.exitInputError
        ("Cannot " ++ st ++ " messages with MQTT: messages are automatically completed.")] := by
    have hmq : ("mqtt" : String).isEmpty = false := rfl
    simp [scriptEvents, hgs, strTruthy, hE1, hE2, hE3, hmq, bne_iff_ne, hst]
  refine ⟨htrace, ?_, ?_⟩
  · rw [htrace]; simp
  · intro d; rw [htrace]; simp

/-- Witness for C6: `--protocol mqtt --settle reject` with a cached session
token and a device id. -/
theorem mqtt_nondefault_settle_errors_before_connect_witness :
    scriptEvents 0 (fun _ => .argumentError) (.content "SAS") (fun s => s)
      (fun _ => .error "unused") (fun _ => .error "unused")
      { connectionString := none, login := none, protocol := some "mqtt", send := true,
        receive := false, uploadFile := none, settle := some "reject",
        firstArg := some "myDevice" } =
      [.exitInputError
        ("Cannot " ++ "reject" ++ " messages with MQTT: messages are automatically completed.")] ∧
    Ev.clientOpen ∉
      scriptEvents 0 (fun _ => .argumentError) (.content "SAS") (fun s => s)
        (fun _ => .error "unused") (fun _ => .error "unused")
        { connectionString := none, login := none, protocol := some "mqtt", send := true,
          receive := false, uploadFile := none, settle := some "reject",
          firstArg := some "myDevice" } ∧
    ∀ d, Ev.registryGet d ∉
      scriptEvents 0 (fun _ => .argumentError) (.content "SAS") (fun s => s)
        (fun _ => .error "unused") (fun _ => .error "unused")
        { connectionString := none, login := none, protocol := some "mqtt", send := true,
          receive := false, uploadFile := none, settle := some "reject",
          firstArg := some "myDevice" } :=
  mqtt_nondefault_settle_errors_before_connect 0 (fun _ => .argumentError) (fun s => s)
    (fun _ => .error "unused") (fun _ => .error "unused") "SAS" "reject" "myDevice"
    (by decide) (by decide) (by decide) (by decide)
